import Mathlib

/-!
Verification development for the serverless shoe-product API handlers.

The handlers live in src/handlers.ts (main variant) and in two earlier
variants of the same file. They implement CRUD and paginated search over a
single DynamoDB table keyed by shoeProductID, plus a payment-intent proxy.
The table is modelled as a list of items in the order the document store
scans them; each handler is a pure function from the incoming request data
(and the table state) to the HTTP response (and the resulting table state).
External collaborators (the uuid generator, the payment processor) are
modelled as explicit inputs.
-/

namespace ShoeStore

/-- A product record as stored in the ShoeProductsTable document store
(data model of the spec, section 3). Numeric JSON values are modelled as
integers. The three nullable fields of the schema stay optional. -/
structure Item where
  shoeProductID : String
  name : String
  description : String
  price : Int
  available : Bool
  media : List String
  company : String
  currency : String
  colors : List String
  reviewsCount : Option Int
  avgReviews : Option Int
  featured : Option Bool
deriving DecidableEq

/-- The table contents, in the order the document store scans its items. -/
abbrev Store := List Item

/-- docClient.put: unconditional write, overwriting any item that already
holds the same key (no existence check). -/
def putItem : Store → Item → Store
  | [], it => [it]
  | i :: rest, it =>
    if i.shoeProductID = it.shoeProductID then it :: rest else i :: putItem rest it

/-- docClient.get: key lookup by shoeProductID. -/
def getItem (store : Store) (id : String) : Option Item :=
  store.find? (fun i => i.shoeProductID == id)

/-- docClient.delete: removes the item holding the key, if any. -/
def deleteItem (store : Store) (id : String) : Store :=
  store.filter (fun i => i.shoeProductID != id)

/-- The parsed JSON request body of a create or update request. Every field
is optional because clients may omit any of them; clients may also send a
shoeProductID of their own, which the handlers override. -/
structure ReqBody where
  name : Option String := none
  description : Option String := none
  price : Option Int := none
  available : Option Bool := none
  media : Option (List String) := none
  company : Option String := none
  currency : Option String := none
  colors : Option (List String) := none
  reviewsCount : Option Int := none
  avgReviews : Option Int := none
  featured : Option Bool := none
  shoeProductID : Option String := none
deriving DecidableEq

/-- Modelled from the spec: the schema-validation library treats URL
well-formedness as a black-box rule (its internals are out of scope).
Modelled as an http or https URL prefix check. -/
def isUrlLike (s : String) : Bool :=
  List.isPrefixOf "http://".data s.data || List.isPrefixOf "https://".data s.data

/-- schema.validate(reqBody, abortEarly false): checks every rule of the
fixed per-field rule set from src/handlers.ts and returns the complete list
of violations in field-declaration order; the empty list means the body is
accepted. The rule set: name required, at most 250 chars; description
required, at most 1000; price required, between 1 and 10000; available
required; media required, each element a URL; company required, at most
100; currency required, one of the two symbols; colors required, each at
most 10 chars and starting with a hash mark; reviewsCount nullable,
positive (integrality is inherent in the Int model); avgReviews nullable,
between 1 and 5; featured nullable, no rule. -/
def validate (b : ReqBody) : List String :=
  (match b.name with
   | none => ["name is a required field"]
   | some s => if s.length ≤ 250 then [] else ["name must be at most 250 characters"]) ++
  (match b.description with
   | none => ["description is a required field"]
   | some s => if s.length ≤ 1000 then [] else ["description must be at most 1000 characters"]) ++
  (match b.price with
   | none => ["price is a required field"]
   | some p =>
     (if p < 1 then ["price must be greater than or equal to 1"] else []) ++
     (if 10000 < p then ["price must be less than or equal to 10000"] else [])) ++
  (match b.available with
   | none => ["available is a required field"]
   | some _ => []) ++
  (match b.media with
   | none => ["media is a required field"]
   | some l =>
     (l.enum.filter (fun e => !isUrlLike e.2)).map
       (fun e => "media[" ++ toString e.1 ++ "] must be a valid URL")) ++
  (match b.company with
   | none => ["company is a required field"]
   | some s => if s.length ≤ 100 then [] else ["company must be at most 100 characters"]) ++
  (match b.currency with
   | none => ["currency is a required field"]
   | some s => if s = "€" || s = "$" then [] else ["currency must match the allowed symbols"]) ++
  (match b.colors with
   | none => ["colors is a required field"]
   | some l =>
     (l.enum.map (fun e =>
       (if e.2.length ≤ 10 then []
        else ["colors[" ++ toString e.1 ++ "] must be at most 10 characters"]) ++
       (if List.isPrefixOf "#".data e.2.data then []
        else ["colors[" ++ toString e.1 ++ "] must start with a hash mark"]))).flatten) ++
  (match b.reviewsCount with
   | none => []
   | some n => if 0 < n then [] else ["reviewsCount must be a positive number"]) ++
  (match b.avgReviews with
   | none => []
   | some n =>
     (if n < 1 then ["avgReviews must be greater than or equal to 1"] else []) ++
     (if 5 < n then ["avgReviews must be less than or equal to 5"] else []))

/-- The result of fetchShoeProductById as seen by its callers. When the id
is absent the helper RETURNS (it does not throw) the handleError image of
HttpError 404, so callers receive that 404 response object as an ordinary
value; notFound stands for that value (see notFoundResponse below). -/
inductive Fetched where
  | notFound
  | found (i : Item)
deriving DecidableEq

/-- A projected page entry of the projection variant: avgReviews,
reviewsCount, colors and available are destructured away, and media is
replaced by media.shift(), the first element of the list (absent when the
list is empty). -/
structure ProjectedItem where
  shoeProductID : String
  name : String
  description : String
  price : Int
  company : String
  currency : String
  featured : Option Bool
  media : Option String
deriving DecidableEq

/-- The pagination block of the list response body. -/
structure Pagination where
  pageSize : Nat
  totalCount : Nat
  nextPageKey : Option String
deriving DecidableEq

/-- Response bodies, modelled structurally (JSON serialization elided). -/
inductive RespBody where
  | errorList (errs : List String)
  | errorMsg (msg : String)
  | dataItem (i : Item)
  | dataFetched (f : Fetched)
  | dataList (items : List Item) (pg : Pagination)
  | dataListProjected (items : List ProjectedItem) (pg : Pagination)
  | dataClientSecret (secret : String)
  | nullBody
deriving DecidableEq

/-- An HTTP response: status code plus body. -/
structure Response where
  statusCode : Nat
  body : RespBody
deriving DecidableEq

/-- The failures handleError distinguishes: a validation failure carrying
the full violation list, a JSON parse failure, an HttpError carrying its
status code and serialized body, and anything else. -/
inductive AppError where
  | invalidInput (errs : List String)
  | parseError (msg : String)
  | httpError (statusCode : Nat) (msg : String)
  | other (msg : String)

/-- handleError from src/handlers.ts: validation error to 400 with the
itemized list, parse error to 400 with the parse detail, HttpError to its
own status code (or 500 when falsy), anything else to 400 with a generic
body. -/
def handleError : AppError → Response
  | .invalidInput errs => ⟨400, .errorList errs⟩
  | .parseError msg => ⟨400, .errorMsg ("invalid request body format : " ++ msg)⟩
  | .httpError sc msg => ⟨if sc = 0 then 500 else sc, .errorMsg msg⟩
  | .other msg => ⟨400, .errorMsg msg⟩

/-- The concrete 404 response value produced inside fetchShoeProductById
for an absent id. -/
def notFoundResponse : Response := handleError (.httpError 404 "not found")

/-- fetchShoeProductById: looks the id up; when absent it returns the 404
error response of handleError as an ordinary value (Fetched.notFound)
rather than raising an exception. -/
def fetchShoeProductById (store : Store) (id : String) : Fetched :=
  match getItem store id with
  | some i => .found i
  | none => .notFound

/-- The item written by create and update: the spread of the request body
followed by the shoeProductID override, so the later key wins and any
client-sent shoeProductID is discarded. The getD defaults stand on fields
the validator guarantees present on the success path, the only path on
which this value is built. -/
def toItem (b : ReqBody) (id : String) : Item :=
  { shoeProductID := id
    name := b.name.getD ""
    description := b.description.getD ""
    price := b.price.getD 0
    available := b.available.getD false
    media := b.media.getD []
    company := b.company.getD ""
    currency := b.currency.getD ""
    colors := b.colors.getD []
    reviewsCount := b.reviewsCount
    avgReviews := b.avgReviews
    featured := b.featured }

/-- createShoeProduct: parse the body (none models a JSON parse failure),
validate it with abortEarly false, assign the fresh identifier from the
uuid generator, write unconditionally, and answer 201 with the stored
record. Returns the response together with the resulting table state. -/
def createShoeProduct (store : Store) (freshId : String) (body : Option ReqBody) :
    Response × Store :=
  match body with
  | none => (handleError (.parseError "Unexpected token"), store)
  | some b =>
    match validate b with
    | [] =>
      let product := toItem b freshId
      (⟨201, .dataItem product⟩, putItem store product)
    | errs => (handleError (.invalidInput errs), store)

/-- getShoeProduct: fetches by the path id and answers 200 with whatever
fetchShoeProductById returned, the found item or the not-thrown 404 error
object. -/
def getShoeProduct (store : Store) (id : String) : Response :=
  ⟨200, .dataFetched (fetchShoeProductById store id)⟩

/-- updateShoeProduct: the fetch result is received as a value and
discarded (the helper returns instead of throwing), after which the body
is parsed, validated, and written under the path id, answering 200 with
the written record. -/
def updateShoeProduct (store : Store) (pathId : String) (body : Option ReqBody) :
    Response × Store :=
  let _existenceCheck := fetchShoeProductById store pathId
  match body with
  | none => (handleError (.parseError "Unexpected token"), store)
  | some b =>
    match validate b with
    | [] =>
      let product := toItem b pathId
      (⟨200, .dataItem product⟩, putItem store product)
    | errs => (handleError (.invalidInput errs), store)

/-- deleteShoeProduct: the fetch result is received as a value and
discarded, after which the key is deleted and 204 answered with a null
body. -/
def deleteShoeProduct (store : Store) (pathId : String) : Response × Store :=
  let _existenceCheck := fetchShoeProductById store pathId
  (⟨204, .nullBody⟩, deleteItem store pathId)

/-- Substring occurrence over character lists: does the second list occur
contiguously inside the first. -/
def containsSub (sub : List Char) : List Char → Bool
  | [] => sub.isEmpty
  | c :: rest => List.isPrefixOf sub (c :: rest) || containsSub sub rest

/-- DynamoDB contains(attribute, query): case-sensitive substring test. -/
def strContains (s sub : String) : Bool := containsSub sub.data s.data

/-- The FilterExpression contains(name, query) OR contains(description,
query). -/
def matchesQuery (q : String) (i : Item) : Bool :=
  strContains i.name q || strContains i.description q

/-- The scan filter induced by the optional query parameter. An empty query
string is falsy in the source, so no filter expression is attached for it
either. -/
def filterOf : Option String → Item → Bool
  | none, _ => true
  | some q, i => if q.data.isEmpty then true else matchesQuery q i

/-- The outcome of a docClient.scan call. -/
structure ScanResult where
  items : List Item
  count : Nat
  lastEvaluatedKey : Option String
deriving DecidableEq

/-- The segment of the table lying strictly after the exclusive start key
(the whole table when no key is given). -/
def segmentAfter : Option String → Store → List Item
  | none, store => store
  | some k, store => (store.dropWhile (fun i => i.shoeProductID != k)).drop 1

/-- docClient.scan: examines at most Limit items of the segment after the
exclusive start key, applies the filter expression to the examined items,
and reports a LastEvaluatedKey exactly when the limit stopped the scan
before the end of the segment; Count is the number of items returned. -/
def scan (store : Store) (filter : Item → Bool) (limit : Option Nat)
    (startKey : Option String) : ScanResult :=
  let segment := segmentAfter startKey store
  match limit with
  | none =>
    let items := segment.filter filter
    ⟨items, items.length, none⟩
  | some n =>
    let examined := segment.take n
    let items := examined.filter filter
    ⟨items, items.length,
      if n < segment.length then (examined.getLast?).map Item.shoeProductID else none⟩

/-- Number(pageSize) || 10: an absent (or zero, hence falsy) requested page
size falls back to the default of 10. -/
def parsePageSize : Option Nat → Nat
  | none => 10
  | some n => if n = 0 then 10 else n

/-- ASCII lower-casing of one character, modelling toLowerCase on the ASCII
query parameters involved. -/
def lowerChar (c : Char) : Char :=
  if c.val < 65 then c else if 90 < c.val then c else Char.ofNat (c.val.toNat + 32)

/-- sortBy.toLowerCase() and sortOrder.toLowerCase(). -/
def toLowerStr (s : String) : String := ⟨s.data.map lowerChar⟩

/-- Code-point lexicographic comparison of character lists, modelling
localeCompare on the identifier strings. -/
def lexLe : List Char → List Char → Bool
  | [], _ => true
  | _ :: _, [] => false
  | a :: as, b :: bs => if a < b then true else if b < a then false else lexLe as bs

/-- Price comparator of the ascending price sort. -/
def priceAsc (a b : Item) : Bool := a.price ≤ b.price

/-- Price comparator of the descending price sort (direction -1). -/
def priceDesc (a b : Item) : Bool := b.price ≤ a.price

/-- Identifier comparator of the fallback sort: ascending shoeProductID. -/
def idAsc (a b : Item) : Bool := lexLe a.shoeProductID.data b.shoeProductID.data

/-- The comparator selected by the sort directive, from the source: sort by
price when sortBy lower-cases to price, descending only when sortOrder
lower-cases to desc; every other directive (and no directive) sorts by
shoeProductID ascending. -/
def sortByComparator (sortBy sortOrder : Option String) : Item → Item → Bool :=
  if sortBy.map toLowerStr = some "price" then
    if sortOrder.map toLowerStr = some "desc" then priceDesc else priceAsc
  else idAsc

/-- The in-memory sort of the fetched page. JS Array.sort is a stable sort
consistent with its comparator, modelled by the stable insertion sort over
the selected comparator. -/
def sortPage (sortBy sortOrder : Option String) (items : List Item) : List Item :=
  List.insertionSort (fun a b => sortByComparator sortBy sortOrder a b = true) items

/-- The query-string parameters of a list request. The projection variant
carries no sort parameters; it ignores them. -/
structure ListParams where
  query : Option String := none
  pageSize : Option Nat := none
  nextPageKey : Option String := none
  sortBy : Option String := none
  sortOrder : Option String := none

/-- listShoeProduct, main variant (src/handlers.ts lines 210-277): first an
unbounded scan with the query filter whose Count becomes totalCount, then a
scan limited to the parsed page size resuming at the supplied cursor, then
the in-memory sort of the fetched page. The base64/JSON wrapping of the
cursor is a bijective encoding applied at the boundary, so the cursor is
modelled as the key itself. -/
def listShoeProduct (store : Store) (p : ListParams) : Response :=
  let filter := filterOf p.query
  let totalCount := scan store filter none none
  let parsedPageSize := parsePageSize p.pageSize
  let results := scan store filter (some parsedPageSize) p.nextPageKey
  let sorted := sortPage p.sortBy p.sortOrder results.items
  ⟨200, .dataList sorted ⟨parsedPageSize, totalCount.count, results.lastEvaluatedKey⟩⟩

/-- The projection applied per page item in the projection variant:
destructure avgReviews, reviewsCount, colors, available and media out of
the record, keep the rest, and re-attach media as media.shift(), the first
element of the list. -/
def projectItem (i : Item) : ProjectedItem :=
  { shoeProductID := i.shoeProductID
    name := i.name
    description := i.description
    price := i.price
    company := i.company
    currency := i.currency
    featured := i.featured
    media := i.media.head? }

/-- listShoeProduct, projection variant (src/unnamed/part_001 lines
199-258): the same two scans as the main variant, no sort, and every page
item mapped through the projection. -/
def listShoeProductV1 (store : Store) (p : ListParams) : Response :=
  let filter := filterOf p.query
  let totalCount := scan store filter none none
  let parsedPageSize := parsePageSize p.pageSize
  let results := scan store filter (some parsedPageSize) p.nextPageKey
  let finalCollection := results.items.map projectItem
  ⟨200, .dataListProjected finalCollection
    ⟨parsedPageSize, totalCount.count, results.lastEvaluatedKey⟩⟩

/-- The parsed JSON body of a payment-intent request. -/
structure PaymentBody where
  amount : Option Int
deriving DecidableEq

/-- The request made to the external payment API. -/
structure StripeCall where
  currency : String
  amount : Int
deriving DecidableEq

/-- createPaymentIntent: rejects a falsy amount (absent or zero — the
source tests truthiness, not positivity), otherwise calls the payment API
with the amount times 100 in the fixed currency USD and answers 200 with
only the client secret. clientSecret models the secret issued by the
external payment API; the second component is the call made to that API,
none when no call happens. -/
def createPaymentIntent (clientSecret : String) (body : Option PaymentBody) :
    Response × Option StripeCall :=
  match body with
  | none => (handleError (.parseError "Unexpected token"), none)
  | some b =>
    match b.amount with
    | none => (handleError (.other "Amount is required and should be greater than 0."), none)
    | some a =>
      if a = 0 then
        (handleError (.other "Amount is required and should be greater than 0."), none)
      else
        (⟨200, .dataClientSecret clientSecret⟩, some ⟨"USD", a * 100⟩)

/-- The page of records of a list response. -/
def Response.pageItems : Response → List Item
  | ⟨_, .dataList items _⟩ => items
  | _ => []

/-- The page of projected records of a projection-variant list response. -/
def Response.projectedPageItems : Response → List ProjectedItem
  | ⟨_, .dataListProjected items _⟩ => items
  | _ => []

/-- The totalCount reported in the pagination block of a list response. -/
def Response.reportedTotalCount : Response → Nat
  | ⟨_, .dataList _ pg⟩ => pg.totalCount
  | ⟨_, .dataListProjected _ pg⟩ => pg.totalCount
  | _ => 0

/-- The whole pagination block of a list response. -/
def Response.reportedPagination : Response → Option Pagination
  | ⟨_, .dataList _ pg⟩ => some pg
  | ⟨_, .dataListProjected _ pg⟩ => some pg
  | _ => none

/-- A valid sample request body used by the concrete witnesses. -/
def sampleBody : ReqBody :=
  { name := some "Air"
    description := some "Running shoe"
    price := some 120
    available := some true
    media := some ["https://x/y.jpg"]
    company := some "Nike"
    currency := some "$"
    colors := some ["#fff"]
    reviewsCount := none
    avgReviews := none
    featured := none
    shoeProductID := none }

/-- A sample stored item with the smaller identifier and the larger price. -/
def itemA : Item :=
  { shoeProductID := "a"
    name := "Air Max"
    description := "Running shoe"
    price := 5
    available := true
    media := ["https://x/a.jpg", "https://x/a2.jpg"]
    company := "Nike"
    currency := "$"
    colors := ["#f00"]
    reviewsCount := some 3
    avgReviews := some 4
    featured := none }

/-- A sample stored item with the larger identifier and the smaller price. -/
def itemB : Item :=
  { shoeProductID := "b"
    name := "Boot"
    description := "Leather boot"
    price := 3
    available := false
    media := []
    company := "Clarks"
    currency := "€"
    colors := ["#000"]
    reviewsCount := none
    avgReviews := none
    featured := some true }

/-- Looking up a key in the store right after deleting it finds nothing. -/
theorem getItem_deleteItem (store : Store) (id : String) :
    getItem (deleteItem store id) id = none := by
  simp only [getItem, List.find?_eq_none]
  intro x hx
  simp only [deleteItem, List.mem_filter, bne_iff_ne, ne_eq] at hx
  simpa using hx.2

/-- The empty character list occurs in every character list. -/
theorem containsSub_nil (l : List Char) : containsSub [] l = true := by
  cases l <;> rfl

/-- Code-point lexicographic comparison is total. -/
theorem lexLe_total (as : List Char) : ∀ bs, lexLe as bs = true ∨ lexLe bs as = true := by
  induction as with
  | nil => exact fun bs => Or.inl rfl
  | cons a as ih =>
    intro bs
    cases bs with
    | nil => exact Or.inr rfl
    | cons b bs =>
      by_cases h1 : a < b
      · left; simp [lexLe, h1]
      · by_cases h2 : b < a
        · right; simp [lexLe, h2]
        · rcases ih bs with h | h
          · left; simp [lexLe, h1, h2, h]
          · right; simp [lexLe, h1, h2, h]

/-- Code-point lexicographic comparison is transitive. -/
theorem lexLe_trans :
    ∀ as bs cs, lexLe as bs = true → lexLe bs cs = true → lexLe as cs = true := by
  intro as
  induction as with
  | nil => exact fun _ _ _ _ => rfl
  | cons a as ih =>
    intro bs cs h1 h2
    cases bs with
    | nil => exact absurd h1 (by simp [lexLe])
    | cons b bs =>
      cases cs with
      | nil => exact absurd h2 (by simp [lexLe])
      | cons c cs =>
        rcases lt_trichotomy a b with hab | hab | hab
        · rcases lt_trichotomy b c with hbc | hbc | hbc
          · simp [lexLe, lt_trans hab hbc]
          · subst hbc; simp [lexLe, hab]
          · simp [lexLe, asymm hbc, hbc] at h2
        · subst hab
          rcases lt_trichotomy a c with hac | hac | hac
          · simp [lexLe, hac]
          · subst hac
            simp only [lexLe, lt_irrefl, if_false] at h1 h2 ⊢
            exact ih bs cs h1 h2
          · simp [lexLe, asymm hac, hac] at h2
        · simp [lexLe, asymm hab, hab] at h1

/-- The insertion sort over a total and transitive comparator produces a
page sorted by that comparator. -/
theorem sorted_insertionSortCmp (cmp : Item → Item → Bool)
    (htot : ∀ a b, cmp a b = true ∨ cmp b a = true)
    (htr : ∀ a b c, cmp a b = true → cmp b c = true → cmp a c = true)
    (l : List Item) :
    List.Sorted (fun a b => cmp a b = true)
      (List.insertionSort (fun a b => cmp a b = true) l) := by
  haveI : IsTotal Item (fun a b => cmp a b = true) := ⟨htot⟩
  haveI : IsTrans Item (fun a b => cmp a b = true) := ⟨htr⟩
  exact List.sorted_insertionSort _ l

/-- The ascending price comparator is total. -/
theorem priceAsc_total (a b : Item) : priceAsc a b = true ∨ priceAsc b a = true := by
  simp only [priceAsc, decide_eq_true_eq]
  exact Int.le_total _ _

/-- The ascending price comparator is transitive. -/
theorem priceAsc_trans (a b c : Item) :
    priceAsc a b = true → priceAsc b c = true → priceAsc a c = true := by
  simp only [priceAsc, decide_eq_true_eq]
  exact le_trans

/-- The descending price comparator is total. -/
theorem priceDesc_total (a b : Item) : priceDesc a b = true ∨ priceDesc b a = true := by
  simp only [priceDesc, decide_eq_true_eq]
  exact Int.le_total _ _

/-- The descending price comparator is transitive. -/
theorem priceDesc_trans (a b c : Item) :
    priceDesc a b = true → priceDesc b c = true → priceDesc a c = true := by
  simp only [priceDesc, decide_eq_true_eq]
  exact fun h1 h2 => le_trans h2 h1

/-- The ascending identifier comparator is total. -/
theorem idAsc_total (a b : Item) : idAsc a b = true ∨ idAsc b a = true :=
  lexLe_total _ _

/-- The ascending identifier comparator is transitive. -/
theorem idAsc_trans (a b c : Item) :
    idAsc a b = true → idAsc b c = true → idAsc a c = true :=
  lexLe_trans _ _ _

/-- The sorted page is sorted by the comparator the directive selects. -/
theorem sortPage_sorted (sb so : Option String) (l : List Item) :
    List.Sorted (fun a b => sortByComparator sb so a b = true) (sortPage sb so l) := by
  unfold sortPage sortByComparator
  by_cases h1 : sb.map toLowerStr = some "price"
  · by_cases h2 : so.map toLowerStr = some "desc"
    · simp only [h1, h2, if_true]
      exact sorted_insertionSortCmp priceDesc priceDesc_total priceDesc_trans l
    · simp only [h1, h2, if_true, if_false]
      exact sorted_insertionSortCmp priceAsc priceAsc_total priceAsc_trans l
  · simp only [h1, if_false]
    exact sorted_insertionSortCmp idAsc idAsc_total idAsc_trans l

/-- Claim C1, evaluated on the code at the failing input: the id p1 names
no record (the store is empty), yet updateShoeProduct validates the body,
writes a brand-new record under p1 and answers 200 — the existence check
never aborts the run because fetchShoeProductById returns the 404 error
object instead of throwing it. The claim demands unchanged storage, a
not-found response, and that no record be created. -/
theorem claim1_update_of_missing_id_creates_record :
    getItem ([] : Store) "p1" = none
      ∧ updateShoeProduct ([] : Store) "p1" (some sampleBody)
          = (⟨200, .dataItem (toItem sampleBody "p1")⟩, [toItem sampleBody "p1"])
      ∧ getItem (updateShoeProduct ([] : Store) "p1" (some sampleBody)).2 "p1"
          = some (toItem sampleBody "p1") := by
  decide

/-- Claim C2, evaluated on the code at the failing input: for an absent id
(also right after a successful delete) getShoeProduct answers status 200,
embedding the not-thrown 404 error object as its data; the 404 status
exists only inside that embedded object, never as the status of the
response. The claim demands a 404 response. -/
theorem claim2_get_of_absent_id_returns_200 :
    getItem ([] : Store) "p1" = none
      ∧ getShoeProduct ([] : Store) "p1" = ⟨200, .dataFetched .notFound⟩
      ∧ (deleteShoeProduct [toItem sampleBody "p1"] "p1").1.statusCode = 204
      ∧ getShoeProduct (deleteShoeProduct [toItem sampleBody "p1"] "p1").2 "p1"
          = ⟨200, .dataFetched .notFound⟩
      ∧ notFoundResponse.statusCode = 404 := by
  decide

/-- Claim C3: a create or update request whose body violates the
validation rule set answers 400 carrying the complete ordered violation
list produced by the validator, and leaves storage untouched. -/
theorem claim3_invalid_body_yields_400_with_all_violations_and_no_write
    (store : Store) (freshId pathId : String) (b : ReqBody)
    (h : validate b ≠ []) :
    createShoeProduct store freshId (some b)
        = (⟨400, .errorList (validate b)⟩, store)
      ∧ updateShoeProduct store pathId (some b)
        = (⟨400, .errorList (validate b)⟩, store) := by
  cases hv : validate b with
  | nil => exact absurd hv h
  | cons e es =>
    simp only [createShoeProduct, updateShoeProduct, hv, handleError]
    exact ⟨trivial, trivial⟩

/-- Witness for claim C3 at a concrete invalid body: the all-empty body
violates every required-field rule; both handlers answer 400 with the full
eight-entry list and write nothing. -/
theorem claim3_witness :
    createShoeProduct ([] : Store) "f1" (some { })
        = (⟨400, .errorList (validate { })⟩, [])
      ∧ updateShoeProduct ([] : Store) "p1" (some { })
        = (⟨400, .errorList (validate { })⟩, []) :=
  claim3_invalid_body_yields_400_with_all_violations_and_no_write
    [] "f1" "p1" { } (by decide)

/-- Claim C4: when a query string is carried, every record of the returned
page contains it as a case-sensitive substring of its name or of its
description; with no query the returned page is the unfiltered scan page
(sorted in memory as every page is). -/
theorem claim4_query_filters_page (store : Store) (p : ListParams) :
    (∀ q, p.query = some q →
      ∀ i ∈ (listShoeProduct store p).pageItems,
        (strContains i.name q || strContains i.description q) = true)
      ∧ (p.query = none →
        (listShoeProduct store p).pageItems
          = sortPage p.sortBy p.sortOrder
              (scan store (fun _ => true) (some (parsePageSize p.pageSize))
                p.nextPageKey).items) := by
  constructor
  · intro q hq i hi
    have hi' : i ∈ sortPage p.sortBy p.sortOrder
        (scan store (filterOf p.query) (some (parsePageSize p.pageSize))
          p.nextPageKey).items := hi
    have hperm := List.perm_insertionSort
      (fun a b => sortByComparator p.sortBy p.sortOrder a b = true)
      (scan store (filterOf p.query) (some (parsePageSize p.pageSize))
        p.nextPageKey).items
    have hmem := hperm.mem_iff.mp hi'
    have hmem' : i ∈ List.filter (filterOf p.query)
        ((segmentAfter p.nextPageKey store).take (parsePageSize p.pageSize)) := hmem
    have hf : filterOf p.query i = true := (List.mem_filter.mp hmem').2
    rw [hq] at hf
    by_cases he : q.data.isEmpty
    · have : q.data = [] := by simpa using he
      simp [strContains, this, containsSub_nil]
    · simpa [filterOf, he, matchesQuery] using hf
  · intro hq
    have hfil : filterOf p.query = fun _ => true := by
      rw [hq]
      funext i
      rfl
    unfold listShoeProduct
    rw [hfil]
    rfl

/-- Witness for claim C4 at a concrete store and page: the record returned
for the query Run contains Run in its description, and the no-query run
returns the unfiltered page. -/
theorem claim4_witness :
    (strContains itemA.name "Run" || strContains itemA.description "Run") = true
      ∧ (listShoeProduct [itemB, itemA] ({ } : ListParams)).pageItems
        = sortPage none none
            (scan [itemB, itemA] (fun _ => true) (some (parsePageSize none)) none).items :=
  ⟨(claim4_query_filters_page [itemB, itemA] { query := some "Run" }).1
      "Run" rfl itemA (by decide),
   (claim4_query_filters_page [itemB, itemA] { }).2 rfl⟩

/-- Claim C5 refuted as stated: with the sort directive sortBy
shoeProductID, sortOrder desc, descending is explicitly requested, yet the
page comes back in strictly ascending identifier order, because the source
honors the desc direction only for price sorts. -/
theorem claim5_identifier_desc_counterexample :
    (listShoeProduct [itemB, itemA]
        { sortBy := some "shoeProductID", sortOrder := some "desc" }).pageItems
      = [itemA, itemB]
      ∧ idAsc itemA itemB = true
      ∧ idAsc itemB itemA = false
      ∧ itemA.shoeProductID ≠ itemB.shoeProductID := by
  decide

/-- Claim C5 amended: sorting affects only the in-memory page, which is a
permutation of the scanned page, sorted by the comparator the directive
selects — by price when the sort field lower-cases to price (descending
exactly when descending is explicitly requested on that price sort), and
by identifier in ascending order for any other or missing directive, a
descending request being ignored for identifier sorts. The pagination
metadata is unaffected by the sort directive. -/
theorem claim5_page_sorting (store : Store) (p : ListParams) :
    ((listShoeProduct store p).pageItems).Perm
        (scan store (filterOf p.query) (some (parsePageSize p.pageSize))
          p.nextPageKey).items
      ∧ List.Sorted (fun a b => sortByComparator p.sortBy p.sortOrder a b = true)
          (listShoeProduct store p).pageItems
      ∧ (listShoeProduct store p).reportedPagination
        = (listShoeProduct store
            { p with sortBy := none, sortOrder := none }).reportedPagination :=
  ⟨List.perm_insertionSort _ _, sortPage_sorted p.sortBy p.sortOrder _, rfl⟩

/-- Claim C6: the totalCount reported by the list handler is the Count of
the unbounded, cursor-free scan under the same query filter — the number
of records of the whole table matching that filter — and it does not
depend on the requested page size or on the supplied cursor. -/
theorem claim6_total_count_unbounded_scan (store : Store) (p : ListParams) :
    (listShoeProduct store p).reportedTotalCount
        = (scan store (filterOf p.query) none none).count
      ∧ (scan store (filterOf p.query) none none).count
        = (store.filter (filterOf p.query)).length
      ∧ ∀ ps k,
          (listShoeProduct store
            { p with pageSize := ps, nextPageKey := k }).reportedTotalCount
          = (listShoeProduct store p).reportedTotalCount :=
  ⟨rfl, rfl, fun _ _ => rfl⟩

/-- Claim C7, evaluated on the code: the handler rejects an absent and a
zero amount as required, but a negative amount is truthy, so the body with
amount -1 is accepted, a payment intent is created for -100 minor units in
the fixed currency, and 200 is answered with only the client secret —
contradicting the claim and the code's own error message, which demands an
amount greater than 0. -/
theorem claim7_payment_amount_truthiness :
    createPaymentIntent "sec" (some ⟨none⟩)
        = (⟨400, .errorMsg "Amount is required and should be greater than 0."⟩, none)
      ∧ createPaymentIntent "sec" (some ⟨some 0⟩)
        = (⟨400, .errorMsg "Amount is required and should be greater than 0."⟩, none)
      ∧ createPaymentIntent "sec" (some ⟨some 5⟩)
        = (⟨200, .dataClientSecret "sec"⟩, some ⟨"USD", 500⟩)
      ∧ createPaymentIntent "sec" (some ⟨some (-1)⟩)
        = (⟨200, .dataClientSecret "sec"⟩, some ⟨"USD", -100⟩) := by
  decide

/-- Claim C8: in the projection variant every record of the returned page
is the projection of the corresponding scanned record — the projection
type carries no avgReviews, reviewsCount, colors or available field, and
its media field is the first element of the original media list. -/
theorem claim8_projection_strips_fields (store : Store) (p : ListParams) :
    (listShoeProductV1 store p).projectedPageItems
        = ((scan store (filterOf p.query) (some (parsePageSize p.pageSize))
            p.nextPageKey).items).map projectItem
      ∧ ((listShoeProductV1 store p).projectedPageItems).map ProjectedItem.media
        = ((scan store (filterOf p.query) (some (parsePageSize p.pageSize))
            p.nextPageKey).items).map (fun i => i.media.head?) := by
  refine ⟨rfl, ?_⟩
  show (((scan store (filterOf p.query) (some (parsePageSize p.pageSize))
      p.nextPageKey).items).map projectItem).map ProjectedItem.media = _
  rw [List.map_map]
  rfl

/-- Claim C9: deleting an id and then reading it on the resulting storage
always yields the not-found condition, whether or not the id existed
before the delete; the not-found value carries status 404. -/
theorem claim9_delete_then_read_not_found (store : Store) (id : String) :
    fetchShoeProductById (deleteShoeProduct store id).2 id = .notFound
      ∧ notFoundResponse.statusCode = 404 := by
  refine ⟨?_, rfl⟩
  show fetchShoeProductById (deleteItem store id) id = .notFound
  unfold fetchShoeProductById
  rw [getItem_deleteItem]

/-- Claim C10: the persisted key is server-controlled. A shoeProductID
sent in the body changes nothing about a create or update run; the item a
successful create writes is keyed by the freshly generated identifier, and
the item a successful update writes is keyed by the path parameter. -/
theorem claim10_server_controlled_key (store : Store)
    (freshId pathId x : String) (b : ReqBody) :
    createShoeProduct store freshId (some { b with shoeProductID := some x })
        = createShoeProduct store freshId (some b)
      ∧ updateShoeProduct store pathId (some { b with shoeProductID := some x })
        = updateShoeProduct store pathId (some b)
      ∧ (toItem b freshId).shoeProductID = freshId
      ∧ (toItem b pathId).shoeProductID = pathId
      ∧ (validate b = [] →
          (createShoeProduct store freshId (some b)).2
            = putItem store (toItem b freshId))
      ∧ (validate b = [] →
          (updateShoeProduct store pathId (some b)).2
            = putItem store (toItem b pathId)) := by
  refine ⟨rfl, rfl, rfl, rfl, fun h => ?_, fun h => ?_⟩
  · simp only [createShoeProduct, h]
  · simp only [updateShoeProduct, h]

/-- Witness for claim C10 at a concrete body: a client-sent shoeProductID
is discarded, the created item is stored under the fresh identifier f1 and
the updated item under the path id p1. -/
theorem claim10_witness :
    createShoeProduct ([] : Store) "f1"
        (some { sampleBody with shoeProductID := some "evil" })
        = createShoeProduct ([] : Store) "f1" (some sampleBody)
      ∧ (createShoeProduct ([] : Store) "f1" (some sampleBody)).2
        = putItem [] (toItem sampleBody "f1")
      ∧ (updateShoeProduct ([] : Store) "p1" (some sampleBody)).2
        = putItem [] (toItem sampleBody "p1")
      ∧ (toItem sampleBody "f1").shoeProductID = "f1" := by
  obtain ⟨h1, h2, h3, h4, h5, h6⟩ :=
    claim10_server_controlled_key [] "f1" "p1" "evil" sampleBody
  exact ⟨h1, h5 (by decide), h6 (by decide), h3⟩

end ShoeStore
